import Mathlib

/-!
Shallow embedding of the objective/target transformation pipeline of the
baybe repository: the legacy module `baybe/targets.py` (weight
normalization, `NumericalTarget`, `Objective`) and the newer module
`baybe/objectives/desirability.py` (weight normalization, `scalarize`,
`DesirabilityObjective`).

Numeric values carried by data frames are modelled by real numbers;
weights, which only flow through exact arithmetic that the claims
inspect, are modelled by rational numbers.  Fallible Python code
(raised exceptions) is modelled with `Except`.

Helper code that the two modules import from elsewhere in the
repository (`Interval`, the bound transform functions, `geom_mean`,
`np.average`) is not part of the given sources and is modelled from the
spec; each such definition carries a doc comment starting with
`Modelled from the spec:`.
-/

namespace Baybe

/-- The optimization mode of a target (the string literals MIN, MAX, MATCH
in `targets.py`). -/
inductive TargetMode where
  | MIN
  | MAX
  | MATCH
  deriving DecidableEq

/-- The bound transform kinds (the string literals LINEAR, TRIANGULAR, BELL
in `targets.py`). -/
inductive TransformKind where
  | LINEAR
  | TRIANGULAR
  | BELL
  deriving DecidableEq

instance : Inhabited TransformKind := ⟨TransformKind.LINEAR⟩

/-- Modelled from the spec: the `Interval` helper class (imported from
`baybe.utils`, not among the given sources).  An end holding `none`
represents an infinite end. -/
structure Interval where
  lower : Option ℝ
  upper : Option ℝ

/-- Modelled from the spec: an interval is finite when both ends are finite. -/
def Interval.is_finite (i : Interval) : Bool :=
  i.lower.isSome && i.upper.isSome

/-- Modelled from the spec: an interval is bounded when at least one end is
finite (so that the validator in `targets.py`, which rejects intervals that
are bounded but not finite, rejects exactly the intervals with one finite
and one infinite end). -/
def Interval.is_bounded (i : Interval) : Bool :=
  i.lower.isSome || i.upper.isSome

/-- Modelled from the spec: `Interval.to_tuple` returns the two ends.  It is
only ever applied to finite intervals, where the `getD` defaults are
irrelevant. -/
def Interval.to_tuple (i : Interval) : ℝ × ℝ :=
  (i.lower.getD 0, i.upper.getD 0)

/-- The Python exceptions that the modelled code can raise at transform
time.  `missingColumn` is the pandas `KeyError` raised when a required
target column is absent from the input table; `keyError` is the `KeyError`
raised by the dict lookup `bounds_transform_funcs[None]` in
`NumericalTarget.transform`; `typeError` is the `TypeError` raised when a
bound transform function is called with a signature mismatch (a
`descending` argument it does not accept, or a missing one). -/
inductive PyError where
  | missingColumn (name : String)
  | keyError
  | typeError
  | valueError (msg : String)
  | notImplementedError (msg : String)
  deriving DecidableEq

/-- A pandas data frame: a row index together with named columns of
numbers. -/
structure DataFrame where
  index : List Nat
  cols : List (String × List ℝ)

/-- Column lookup by name, as `data[name]` on a frame. -/
def DataFrame.getCol (df : DataFrame) (name : String) : Option (List ℝ) :=
  (df.cols.find? (fun p => p.1 == name)).map (fun p => p.2)

/-- Error-propagating map over a list, modelling a Python loop in which
each step may raise: the first raised exception aborts the whole loop. -/
def exceptMapList {α β ε : Type} (f : α → Except ε β) : List α → Except ε (List β)
  | [] => Except.ok []
  | a :: as =>
    match f a with
    | Except.error e => Except.error e
    | Except.ok b =>
      match exceptMapList f as with
      | Except.error e => Except.error e
      | Except.ok bs => Except.ok (b :: bs)

/-- Modelled from the spec: `bound_linear` (imported from `baybe.utils`,
not among the given sources).  Values are clipped to the bounds and scaled
linearly; `descending` flips the orientation. -/
noncomputable def bound_linear (values : List ℝ) (lower upper : ℝ)
    (descending : Bool) : List ℝ :=
  values.map (fun x =>
    let y := (min (max x lower) upper - lower) / (upper - lower)
    if descending then 1 - y else y)

/-- Modelled from the spec: `bound_triangular` (imported from
`baybe.utils`, not among the given sources).  A piecewise-linear tent
peaking at 1 at the midpoint and 0 at and beyond both ends. -/
noncomputable def bound_triangular (values : List ℝ) (lower upper : ℝ) : List ℝ :=
  values.map (fun x =>
    let mid := (lower + upper) / 2
    if x ≤ lower then 0
    else if x < mid then (x - lower) / (mid - lower)
    else if x ≤ upper then (upper - x) / (upper - mid)
    else 0)

/-- Modelled from the spec: `bound_bell` (imported from `baybe.utils`, not
among the given sources).  A Gaussian kernel centered at the midpoint with
the bounds three standard deviations away. -/
noncomputable def bound_bell (values : List ℝ) (lower upper : ℝ) : List ℝ :=
  values.map (fun x =>
    let mid := (lower + upper) / 2
    let sigma := (upper - lower) / 6
    Real.exp (-((x - mid) ^ 2) / (2 * sigma ^ 2)))

/-- Modelled from the spec: `geom_mean` (imported from
`baybe.utils.numerical`, not among the given sources).  Row-wise weighted
geometric mean, exp of the weighted sum of logarithms, short-circuiting to
exactly 0 for a row containing a 0 so that no logarithm of zero is
taken. -/
noncomputable def geom_mean (values : List (List ℝ)) (weights : List ℚ) : List ℝ :=
  values.map (fun row =>
    if (0 : ℝ) ∈ row then 0
    else Real.exp (((row.zip weights).map
      (fun p => ((p.2 : ℝ)) * Real.log p.1)).sum))

/-- Modelled from the spec: `np.average` over the rows of a matrix, the
weighted arithmetic mean with the weighted sum divided by the sum of the
weights. -/
noncomputable def np_average (values : List (List ℝ)) (weights : List ℚ) : List ℝ :=
  values.map (fun row =>
    ((row.zip weights).map (fun p => ((p.2 : ℝ)) * p.1)).sum
      / ((weights.map (fun w => ((w : ℝ)))).sum))

/-- Selection `data[[names]]` of the target columns from the input frame:
a pandas `KeyError` is raised if any requested column is missing. -/
def selectColumns (data : DataFrame) (names : List String) :
    Except PyError (List (String × List ℝ)) :=
  exceptMapList (fun n =>
    match data.getCol n with
    | some c => Except.ok (n, c)
    | none => Except.error (PyError.missingColumn n)) names

/-- The `.values` matrix of a frame with the given columns: one row per
index entry.  Pandas frames are rectangular, so the `getD` default is
irrelevant for frames built from an actual table. -/
def frameValues (n : Nat) (cols : List (List ℝ)) : List (List ℝ) :=
  (List.range n).map (fun i => cols.map (fun c => c.getD i 0))

namespace Targets

/-- The `_VALID_TRANSFORMS` dict of `targets.py`. -/
def _VALID_TRANSFORMS : TargetMode → List TransformKind
  | TargetMode.MAX => [TransformKind.LINEAR]
  | TargetMode.MIN => [TransformKind.LINEAR]
  | TargetMode.MATCH => [TransformKind.TRIANGULAR, TransformKind.BELL]

/-- The `_normalize_weights` function of `targets.py`: scales the weights
by 100 divided by their sum. -/
def _normalize_weights (weights : List ℚ) : List ℚ :=
  weights.map (fun w => 100 * w / weights.sum)

/-- The `NumericalTarget` class of `targets.py`. -/
structure NumericalTarget where
  name : String
  mode : TargetMode
  bounds : Interval
  bounds_transform_func : Option TransformKind

/-- The `_default_bounds_transform_func` default of `targets.py`: for
bounded bounds, the first transform valid for the mode; otherwise none. -/
def _default_bounds_transform_func (mode : TargetMode) (bounds : Interval) :
    Option TransformKind :=
  if bounds.is_bounded then some ((_VALID_TRANSFORMS mode).headI) else none

/-- Construction of a `NumericalTarget`, running the attrs pipeline of
`targets.py` in field order: the `bounds_transform_func` default is filled
in when the argument is not provided (`btfArg = none`), then
`_validate_bounds` and `_validate_bounds_transform_func` run.  An
explicitly provided `None` transform function is `btfArg = some none`. -/
def NumericalTarget.make (name : String) (mode : TargetMode) (bounds : Interval)
    (btfArg : Option (Option TransformKind)) : Except String NumericalTarget :=
  let btf := match btfArg with
    | some v => v
    | none => _default_bounds_transform_func mode bounds
  if !(bounds.is_finite || !bounds.is_bounded) then
    Except.error "Bounds must either be finite or infinite on both ends."
  else if mode == TargetMode.MATCH && !bounds.is_finite then
    Except.error "MATCH mode requires finite bounds."
  else
    match btf with
    | some v =>
      if v ∈ _VALID_TRANSFORMS mode then Except.ok ⟨name, mode, bounds, some v⟩
      else Except.error "The specified bound transform function is not compatible with the target mode."
    | none => Except.ok ⟨name, mode, bounds, none⟩

/-- The invariant established by `NumericalTarget.make`: bounds finite or
fully infinite, MATCH only with finite bounds, and any set transform
function compatible with the mode. -/
def NumericalTarget.valid (t : NumericalTarget) : Bool :=
  (t.bounds.is_finite || !t.bounds.is_bounded) &&
  (!(t.mode == TargetMode.MATCH) || t.bounds.is_finite) &&
  (match t.bounds_transform_func with
    | none => true
    | some v => decide (v ∈ _VALID_TRANSFORMS t.mode))

/-- The application of the selected bound transform function in
`NumericalTarget.transform`: for MAX and MIN modes a `descending` keyword
is partially applied, which only `bound_linear` accepts, and for MATCH
mode no `descending` value is supplied, which only `bound_triangular` and
`bound_bell` accept; the remaining mode and kind combinations raise a
Python `TypeError` from the signature mismatch. -/
noncomputable def apply_bound_transform (mode : TargetMode) (k : TransformKind)
    (data : List ℝ) (lower upper : ℝ) : Except PyError (List ℝ) :=
  match mode, k with
  | TargetMode.MAX, TransformKind.LINEAR =>
    Except.ok (bound_linear data lower upper false)
  | TargetMode.MIN, TransformKind.LINEAR =>
    Except.ok (bound_linear data lower upper true)
  | TargetMode.MATCH, TransformKind.TRIANGULAR =>
    Except.ok (bound_triangular data lower upper)
  | TargetMode.MATCH, TransformKind.BELL =>
    Except.ok (bound_bell data lower upper)
  | _, _ => Except.error PyError.typeError

/-- The `transform` method of `NumericalTarget` in `targets.py`: with
bounded bounds the transform function is looked up in the
`bounds_transform_funcs` dict (a lookup of `None` raises a `KeyError`)
and applied; with unbounded bounds, MIN negates the values and MAX leaves
them unchanged. -/
noncomputable def NumericalTarget.transform (t : NumericalTarget)
    (data : List ℝ) : Except PyError (List ℝ) :=
  if t.bounds.is_bounded then
    match t.bounds_transform_func with
    | none => Except.error PyError.keyError
    | some k =>
      apply_bound_transform t.mode k data t.bounds.to_tuple.1 t.bounds.to_tuple.2
  else if t.mode == TargetMode.MIN then Except.ok (data.map (fun x => -x))
  else Except.ok data

/-- The objective mode literals SINGLE and DESIRABILITY of `targets.py`. -/
inductive ObjectiveMode where
  | SINGLE
  | DESIRABILITY
  deriving DecidableEq

/-- The legacy `Objective` class of `targets.py`. -/
structure Objective where
  mode : ObjectiveMode
  targets : List NumericalTarget
  weights : List ℚ
  combine_func : String

/-- Construction of the legacy `Objective`, running the attrs pipeline of
`targets.py` in field order: the `min_len(1)` and `_validate_targets`
validators on the targets, then the `_normalize_weights` converter on the
(possibly defaulted) weights, the `_validate_weights` length check, and
the membership validator on `combine_func`.  The element-type check of
`_validate_weights` always holds in the embedding. -/
def Objective.make (mode : ObjectiveMode) (targets : List NumericalTarget)
    (weightsArg : Option (List ℚ)) (combine_func : String) :
    Except String Objective :=
  if targets.length < 1 then
    Except.error "Length of targets must be at least 1."
  else if mode == ObjectiveMode.SINGLE && targets.length != 1 then
    Except.error "For objective mode SINGLE, exactly one target must be specified."
  else if mode == ObjectiveMode.DESIRABILITY
      && targets.any (fun t => !t.bounds.is_bounded) then
    Except.error "In DESIRABILITY mode for multiple targets, each target must have bounds defined."
  else
    let weights := _normalize_weights (weightsArg.getD (List.replicate targets.length 1))
    if weights.length != targets.length then
      Except.error "Weights list length differs from the number of defined targets."
    else if !(["MEAN", "GEOM_MEAN"].contains combine_func) then
      Except.error "combine_func must be one of MEAN, GEOM_MEAN."
    else Except.ok ⟨mode, targets, weights, combine_func⟩

/-- The combine-function dispatch inside the legacy `Objective.transform`
in `targets.py`: `geom_mean` for GEOM_MEAN, row-wise `np.average` for
MEAN, and a `ValueError` calling the averaging function unknown for
anything else. -/
noncomputable def combine_dispatch (combine_func : String)
    (values : List (List ℝ)) (weights : List ℚ) : Except PyError (List ℝ) :=
  if combine_func = "GEOM_MEAN" then Except.ok (geom_mean values weights)
  else if combine_func = "MEAN" then Except.ok (np_average values weights)
  else Except.error (PyError.valueError
    ("The specified averaging function " ++ combine_func ++ " is unknown."))

/-- The `transform` method of the legacy `Objective` in `targets.py`:
select the target columns (a missing column raises), transform each
column with its target, and in DESIRABILITY mode combine the columns into
a single `Comp_Target` column indexed like the input. -/
noncomputable def Objective.transform (o : Objective) (data : DataFrame) :
    Except PyError DataFrame :=
  match selectColumns data (o.targets.map (fun t => t.name)) with
  | Except.error e => Except.error e
  | Except.ok sel =>
    match exceptMapList (fun p =>
        match NumericalTarget.transform p.1 p.2.2 with
        | Except.ok v => Except.ok (p.1.name, v)
        | Except.error e => Except.error e) (o.targets.zip sel) with
    | Except.error e => Except.error e
    | Except.ok transformed =>
      if o.mode == ObjectiveMode.DESIRABILITY then
        match combine_dispatch o.combine_func
            (frameValues data.index.length (transformed.map (fun p => p.2)))
            o.weights with
        | Except.error e => Except.error e
        | Except.ok vals => Except.ok ⟨data.index, [("Comp_Target", vals)]⟩
      else Except.ok ⟨data.index, transformed⟩

end Targets

namespace Desirability

/-- The `_normalize_weights` function of `objectives/desirability.py`:
rejects any non-positive weight, otherwise divides each entry by the
sum. -/
def _normalize_weights (weights : List ℚ) : Except String (List ℚ) :=
  if weights.all (fun w => decide (0 < w)) then
    Except.ok (weights.map (fun w => w / weights.sum))
  else Except.error "All weights must be strictly positive."

/-- The abstract `Target` base class of the newer code: the repository
contains target subclasses other than `NumericalTarget` (their code is
not among the given sources), which the `DesirabilityObjective` validator
must reject by a type check. -/
inductive Target where
  | numerical (t : Targets.NumericalTarget)
  | nonNumerical (name : String)

/-- The name of a target. -/
def Target.name : Target → String
  | Target.numerical t => t.name
  | Target.nonNumerical n => n

/-- The isinstance check of `_is_all_numerical_targets`, per target. -/
def Target.isNumerical : Target → Bool
  | Target.numerical _ => true
  | Target.nonNumerical _ => false

/-- Modelled from the spec: the `is_normalized` property of the newer
`NumericalTarget` (its module is not among the given sources): the target
has finite bounds and a transform already set. -/
def is_normalized (t : Targets.NumericalTarget) : Bool :=
  t.bounds.is_finite && t.bounds_transform_func.isSome

/-- The `is_normalized` check lifted to the target base type.  The
validator of `DesirabilityObjective` only evaluates it after the type
check has established that every target is numerical, so the value on the
non-numerical variant is never observed. -/
def Target.is_normalized : Target → Bool
  | Target.numerical t => Desirability.is_normalized t
  | Target.nonNumerical _ => false

/-- Validity of the underlying numerical target, lifted to the base
type. -/
def Target.valid : Target → Bool
  | Target.numerical t => t.valid
  | Target.nonNumerical _ => true

/-- The `scalarize` function of `objectives/desirability.py`.  The
`Scalarization` enum is modelled by its string values GEOM_MEAN and MEAN
(the enum module is not among the given sources); any other kind hits the
`NotImplementedError` branch. -/
noncomputable def scalarize (values : List (List ℝ)) (scalarization : String)
    (weights : List ℚ) : Except PyError (List ℝ) :=
  if scalarization = "GEOM_MEAN" then Except.ok (geom_mean values weights)
  else if scalarization = "MEAN" then Except.ok (np_average values weights)
  else Except.error (PyError.notImplementedError
    ("No scalarization mechanism defined for " ++ scalarization ++ "."))

/-- The `DesirabilityObjective` class of `objectives/desirability.py`. -/
structure DesirabilityObjective where
  targets : List Target
  weights : List ℚ
  scalarization : String

/-- Construction of a `DesirabilityObjective`, running the attrs pipeline
of `objectives/desirability.py` in field order: the `min_len(2)` and
member-type validators on the targets, the `_validate_targets` checks
(all numerical, all normalized), then the `_normalize_weights` converter
on the (possibly defaulted) weights, the `_validate_weights` length
check, and the `Scalarization` converter on the scalarization value. -/
def DesirabilityObjective.make (targets : List Target)
    (weightsArg : Option (List ℚ)) (scalarization : String) :
    Except String DesirabilityObjective :=
  if targets.length < 2 then
    Except.error "Length of targets must be at least 2."
  else if !(targets.all Target.isNumerical) then
    Except.error "DesirabilityObjective currently only supports targets of type NumericalTarget."
  else if !(targets.all Target.is_normalized) then
    Except.error "All targets must be normalized, which requires setting appropriate bounds and transformations."
  else
    match _normalize_weights (weightsArg.getD (List.replicate targets.length 1)) with
    | Except.error e => Except.error e
    | Except.ok weights =>
      if weights.length != targets.length then
        Except.error "If custom weights are specified, there must be one for each target."
      else if !(["MEAN", "GEOM_MEAN"].contains scalarization) then
        Except.error "Invalid scalarization value."
      else Except.ok ⟨targets, weights, scalarization⟩

/-- The per-target transform call in `DesirabilityObjective.transform`.
The transform of target subclasses other than `NumericalTarget` is not
among the given sources; the validator excludes such targets from any
constructed objective, so that branch is unreachable for valid
objectives. -/
noncomputable def Target.transformAny : Target → List ℝ → Except PyError (List ℝ)
  | Target.numerical t, data => t.transform data
  | Target.nonNumerical _, _ => Except.error PyError.typeError

/-- The `transform` method of `DesirabilityObjective` in
`objectives/desirability.py`: select the target columns (a missing column
raises), transform each column with its target, scalarize the resulting
matrix, and return a single `Desirability` column indexed like the
input. -/
noncomputable def DesirabilityObjective.transform (o : DesirabilityObjective)
    (data : DataFrame) : Except PyError DataFrame :=
  match selectColumns data (o.targets.map Target.name) with
  | Except.error e => Except.error e
  | Except.ok sel =>
    match exceptMapList (fun p =>
        match Target.transformAny p.1 p.2.2 with
        | Except.ok v => Except.ok (p.1.name, v)
        | Except.error e => Except.error e) (o.targets.zip sel) with
    | Except.error e => Except.error e
    | Except.ok transformed =>
      match scalarize (frameValues data.index.length (transformed.map (fun p => p.2)))
          o.scalarization o.weights with
      | Except.error e => Except.error e
      | Except.ok vals => Except.ok ⟨data.index, [("Desirability", vals)]⟩

end Desirability

/-! Helper lemmas. -/

/-- Indexing commutes with `map` at in-range positions. -/
lemma getD_map_of_lt {α β : Type} (f : α → β) (l : List α) (i : ℕ) (d : α)
    (d' : β) (h : i < l.length) : (l.map f).getD i d' = f (l.getD i d) := by
  rw [List.getD_eq_getElem _ _ (by simpa using h), List.getD_eq_getElem _ _ h,
    List.getElem_map]

/-- Dividing every entry by a constant divides the sum. -/
lemma sum_map_div (l : List ℚ) (s : ℚ) :
    (l.map (fun w => w / s)).sum = l.sum / s := by
  induction l with
  | nil => simp
  | cons a t ih => simp [ih, div_add_div_same]

/-- An `Except` value is `isOk` exactly when it is an `ok`. -/
lemma isOk_iff {ε α : Type} (e : Except ε α) :
    e.isOk = true ↔ ∃ b, e = Except.ok b := by
  cases e <;> simp [Except.isOk, Except.toBool]

/-- If every element maps to an `ok`, the whole error-propagating map is
an `ok`. -/
lemma exceptMapList_ok {α β ε : Type} (f : α → Except ε β) (l : List α)
    (h : ∀ a ∈ l, (f a).isOk = true) : ∃ ys, exceptMapList f l = Except.ok ys := by
  induction l with
  | nil => exact ⟨[], rfl⟩
  | cons a t ih =>
    obtain ⟨b, hb⟩ := (isOk_iff _).mp (h a (List.mem_cons_self a t))
    obtain ⟨ys, hys⟩ := ih (fun x hx => h x (List.mem_cons_of_mem a hx))
    exact ⟨b :: ys, by simp [exceptMapList, hb, hys]⟩

/-- If the error-propagating map fails, some element produced that
failure. -/
lemma exceptMapList_error {α β ε : Type} (f : α → Except ε β) (l : List α)
    (e : ε) (h : exceptMapList f l = Except.error e) :
    ∃ a ∈ l, f a = Except.error e := by
  induction l with
  | nil => simp [exceptMapList] at h
  | cons a t ih =>
    rw [exceptMapList] at h
    match hfa : f a with
    | Except.error e₁ =>
      rw [hfa] at h
      exact ⟨a, List.mem_cons_self a t, by cases h; exact hfa⟩
    | Except.ok b =>
      rw [hfa] at h
      match hrest : exceptMapList f t with
      | Except.error e₂ =>
        rw [hrest] at h
        obtain ⟨x, hx, hfx⟩ := ih (by cases h; exact hrest)
        exact ⟨x, List.mem_cons_of_mem a hx, hfx⟩
      | Except.ok ys => rw [hrest] at h; cases h

/-! Claim C1. -/

/-- C1, counterexample: the claim is false as stated.  On the accepted
weight vector with two entries 1, the weight normalizer of the legacy
`targets.py` returns the entries scaled to `[50, 50]`, which is not the
entry-wise division by the sum and does not sum to 1, while the
normalizer of `desirability.py` does return the division by the sum. -/
theorem claim1_counterexample :
    Targets._normalize_weights [1, 1] = [50, 50] ∧
    (Targets._normalize_weights [1, 1]).sum ≠ 1 ∧
    Desirability._normalize_weights [1, 1] = Except.ok [1/2, 1/2] := by
  refine ⟨?_, ?_, ?_⟩ <;>
    norm_num [Targets._normalize_weights, Desirability._normalize_weights]

/-- C1, amended: for every nonempty weight vector with positive entries,
the normalizer of `desirability.py` returns the entries divided by their
sum, which sum to 1 and preserve pairwise ratios; the normalizer of the
legacy `targets.py` instead scales each entry by 100 over the sum, so the
output sums to 100 (not 1) while still preserving pairwise ratios. -/
theorem claim1_theorem (ws : List ℚ) (hne : ws ≠ []) (hpos : ∀ w ∈ ws, 0 < w) :
    Desirability._normalize_weights ws
      = Except.ok (ws.map (fun w => w / ws.sum)) ∧
    (ws.map (fun w => w / ws.sum)).sum = 1 ∧
    (∀ i j, i < ws.length → j < ws.length →
      (ws.map (fun w => w / ws.sum)).getD i 0 * ws.getD j 0
        = (ws.map (fun w => w / ws.sum)).getD j 0 * ws.getD i 0) ∧
    Targets._normalize_weights ws = ws.map (fun w => 100 * w / ws.sum) ∧
    (Targets._normalize_weights ws).sum = 100 ∧
    (∀ i j, i < ws.length → j < ws.length →
      (Targets._normalize_weights ws).getD i 0 * ws.getD j 0
        = (Targets._normalize_weights ws).getD j 0 * ws.getD i 0) := by
  have hsum : 0 < ws.sum := List.sum_pos ws hpos hne
  have hsne : ws.sum ≠ 0 := ne_of_gt hsum
  have hall : ws.all (fun w => decide (0 < w)) = true :=
    List.all_eq_true.mpr (fun x hx => decide_eq_true (hpos x hx))
  refine ⟨?_, ?_, ?_, rfl, ?_, ?_⟩
  · rw [Desirability._normalize_weights, if_pos hall]
  · rw [sum_map_div, div_self hsne]
  · intro i j hi hj
    rw [getD_map_of_lt _ _ _ 0 _ hi, getD_map_of_lt _ _ _ 0 _ hj]
    ring
  · rw [Targets._normalize_weights]
    have hcomp : ws.map (fun w => 100 * w / ws.sum)
        = (ws.map (fun w => 100 * w)).map (fun w => w / ws.sum) := by
      rw [List.map_map]; rfl
    rw [hcomp, sum_map_div]
    have h100 : (ws.map (fun w => 100 * w)).sum = 100 * ws.sum := by
      have := List.sum_map_mul_left ws (fun w => w) (100 : ℚ)
      simpa using this
    rw [h100, mul_div_assoc, div_self hsne, mul_one]
  · intro i j hi hj
    rw [Targets._normalize_weights, getD_map_of_lt _ _ _ 0 _ hi,
      getD_map_of_lt _ _ _ 0 _ hj]
    ring

/-- C1, witness: the amended claim evaluated at the weight vector with
entries 1 and 3. -/
theorem claim1_witness :
    Desirability._normalize_weights [1, 3]
      = Except.ok (([1, 3] : List ℚ).map (fun w => w / ([1, 3] : List ℚ).sum)) ∧
    (([1, 3] : List ℚ).map (fun w => w / ([1, 3] : List ℚ).sum)).sum = 1 ∧
    (∀ i j, i < ([1, 3] : List ℚ).length → j < ([1, 3] : List ℚ).length →
      (([1, 3] : List ℚ).map (fun w => w / ([1, 3] : List ℚ).sum)).getD i 0
          * ([1, 3] : List ℚ).getD j 0
        = (([1, 3] : List ℚ).map (fun w => w / ([1, 3] : List ℚ).sum)).getD j 0
          * ([1, 3] : List ℚ).getD i 0) ∧
    Targets._normalize_weights [1, 3]
      = ([1, 3] : List ℚ).map (fun w => 100 * w / ([1, 3] : List ℚ).sum) ∧
    (Targets._normalize_weights [1, 3]).sum = 100 ∧
    (∀ i j, i < ([1, 3] : List ℚ).length → j < ([1, 3] : List ℚ).length →
      (Targets._normalize_weights [1, 3]).getD i 0 * ([1, 3] : List ℚ).getD j 0
        = (Targets._normalize_weights [1, 3]).getD j 0
          * ([1, 3] : List ℚ).getD i 0) :=
  claim1_theorem [1, 3] (by simp) (by norm_num)

/-! Claim C2. -/

/-- C2, counterexample: the claim is false as stated for the legacy
`Objective` of `targets.py`.  A valid unbounded MAX target together with
the single negative weight list passes construction: the legacy weight
validator only checks element type and length, and the legacy normalizer
rescales without any sign check. -/
theorem claim2_counterexample :
    (Targets.NumericalTarget.make "t" TargetMode.MAX ⟨none, none⟩ none).isOk
      = true ∧
    (Targets.Objective.make Targets.ObjectiveMode.SINGLE
      [⟨"t", TargetMode.MAX, ⟨none, none⟩, none⟩] (some [-1]) "GEOM_MEAN").isOk
      = true :=
  ⟨rfl, rfl⟩

/-- C2, amended: for every weight sequence containing an entry that is
less than or equal to zero, the weight normalizer of `desirability.py`
raises its validation error and construction of a `DesirabilityObjective`
fails; the legacy `Objective` of `targets.py` does not perform this
check. -/
theorem claim2_theorem (targets : List Desirability.Target) (ws : List ℚ)
    (scal : String) (h : ∃ w ∈ ws, w ≤ 0) :
    Desirability._normalize_weights ws
      = Except.error "All weights must be strictly positive." ∧
    (Desirability.DesirabilityObjective.make targets (some ws) scal).isOk
      = false := by
  obtain ⟨w, hw, hw0⟩ := h
  have hnot : ¬ (ws.all (fun w => decide (0 < w)) = true) := by
    rw [List.all_eq_true]
    intro hforall
    exact absurd (of_decide_eq_true (hforall w hw)) (not_lt.mpr hw0)
  have hmain : Desirability._normalize_weights ws
      = Except.error "All weights must be strictly positive." := by
    rw [Desirability._normalize_weights, if_neg hnot]
  refine ⟨hmain, ?_⟩
  rw [Desirability.DesirabilityObjective.make]
  split_ifs <;>
    simp [Except.isOk, Except.toBool, Option.getD_some, hmain]

/-- C2, witness: the amended claim evaluated at a two-target objective
with the single weight -1. -/
theorem claim2_witness :
    Desirability._normalize_weights [-1]
      = Except.error "All weights must be strictly positive." ∧
    (Desirability.DesirabilityObjective.make
      [Desirability.Target.numerical
        ⟨"A", TargetMode.MAX, ⟨some 0, some 1⟩, some TransformKind.LINEAR⟩,
       Desirability.Target.numerical
        ⟨"B", TargetMode.MIN, ⟨some 0, some 1⟩, some TransformKind.LINEAR⟩]
      (some [-1]) "GEOM_MEAN").isOk = false :=
  claim2_theorem _ [-1] "GEOM_MEAN" ⟨-1, by simp, by norm_num⟩

/-! Claim C3. -/

/-- C3: for every 2-D input matrix, geometric-mean scalarization succeeds
(no failure from a logarithm of zero) and returns exactly 0 for every row
that contains a 0, regardless of the other values and of the weights. -/
theorem claim3_theorem (values : List (List ℝ)) (weights : List ℚ) (i : ℕ)
    (hi : i < values.length) (h0 : (0 : ℝ) ∈ values.getD i []) :
    ∃ out, Desirability.scalarize values "GEOM_MEAN" weights = Except.ok out ∧
      out.length = values.length ∧ out.getD i 0 = 0 := by
  refine ⟨geom_mean values weights, ?_, ?_, ?_⟩
  · rw [Desirability.scalarize, if_pos rfl]
  · simp [geom_mean]
  · rw [geom_mean, getD_map_of_lt _ _ _ [] _ hi, if_pos h0]

/-- C3, witness: the claim evaluated at a matrix whose first row contains
a 0 next to a nonzero value. -/
theorem claim3_witness :
    ∃ out, Desirability.scalarize [[0, 1/2], [1, 1]] "GEOM_MEAN" [1/2, 1/2]
        = Except.ok out ∧
      out.length = ([[(0 : ℝ), 1/2], [1, 1]]).length ∧ out.getD 0 0 = 0 :=
  claim3_theorem [[0, 1/2], [1, 1]] [1/2, 1/2] 0 (by simp) (by simp)

/-! Claim C4. -/

/-- C4: a `NumericalTarget` with unbounded bounds transforms values
unchanged in MAX mode and negated in MIN mode, and constructing such a
target in MATCH mode fails, so the MATCH branch is unreachable. -/
theorem claim4_theorem (name : String) (bounds : Interval)
    (btf : Option TransformKind) (data : List ℝ)
    (h : bounds.is_bounded = false) :
    Targets.NumericalTarget.transform ⟨name, TargetMode.MAX, bounds, btf⟩ data
      = Except.ok data ∧
    Targets.NumericalTarget.transform ⟨name, TargetMode.MIN, bounds, btf⟩ data
      = Except.ok (data.map (fun x => -x)) ∧
    (∀ btfArg, ∃ msg,
      Targets.NumericalTarget.make name TargetMode.MATCH bounds btfArg
        = Except.error msg) := by
  have hfin : bounds.is_finite = false := by
    rcases bounds with ⟨l, u⟩
    simp only [Interval.is_bounded, Bool.or_eq_false_iff] at h
    simp [Interval.is_finite, h.1]
  refine ⟨?_, ?_, ?_⟩
  · rw [Targets.NumericalTarget.transform]; simp [h]
  · rw [Targets.NumericalTarget.transform]; simp [h]
  · intro btfArg
    refine ⟨"MATCH mode requires finite bounds.", ?_⟩
    rw [Targets.NumericalTarget.make.eq_def]
    simp [h, hfin]

/-- C4, witness: the claim evaluated at a fully infinite interval and a
two-entry column. -/
theorem claim4_witness :
    Targets.NumericalTarget.transform
        ⟨"t", TargetMode.MAX, ⟨none, none⟩, none⟩ [3, -1]
      = Except.ok [3, -1] ∧
    Targets.NumericalTarget.transform
        ⟨"t", TargetMode.MIN, ⟨none, none⟩, none⟩ [3, -1]
      = Except.ok (([3, -1] : List ℝ).map (fun x => -x)) ∧
    (∀ btfArg, ∃ msg,
      Targets.NumericalTarget.make "t" TargetMode.MATCH ⟨none, none⟩ btfArg
        = Except.error msg) :=
  claim4_theorem "t" ⟨none, none⟩ none [3, -1] rfl

/-! Claim C7. -/

/-- C7: constructing a `NumericalTarget` fails when the interval has
exactly one finite end (bounded but not finite), and fails in MATCH mode
whenever the bounds are not finite; with both ends finite, or both ends
infinite and a compatible mode, construction succeeds. -/
theorem claim7_theorem (name : String) (mode : TargetMode)
    (btfArg : Option (Option TransformKind)) (bounds : Interval) :
    (bounds.is_bounded = true → bounds.is_finite = false →
      ∃ msg, Targets.NumericalTarget.make name mode bounds btfArg
        = Except.error msg) ∧
    (bounds.is_finite = false →
      ∃ msg, Targets.NumericalTarget.make name TargetMode.MATCH bounds btfArg
        = Except.error msg) ∧
    (Targets.NumericalTarget.make name TargetMode.MAX ⟨some 0, some 1⟩ none).isOk
      = true ∧
    (Targets.NumericalTarget.make name TargetMode.MATCH ⟨some 0, some 1⟩ none).isOk
      = true ∧
    (Targets.NumericalTarget.make name TargetMode.MAX ⟨none, none⟩ none).isOk
      = true := by
  refine ⟨?_, ?_, rfl, rfl, rfl⟩
  · intro hb hf
    refine ⟨"Bounds must either be finite or infinite on both ends.", ?_⟩
    rw [Targets.NumericalTarget.make.eq_def]
    simp [hb, hf]
  · intro hf
    by_cases hb : bounds.is_bounded = true
    · refine ⟨"Bounds must either be finite or infinite on both ends.", ?_⟩
      rw [Targets.NumericalTarget.make.eq_def]
      simp [hb, hf]
    · have hb' : bounds.is_bounded = false := by simpa using hb
      refine ⟨"MATCH mode requires finite bounds.", ?_⟩
      rw [Targets.NumericalTarget.make.eq_def]
      simp [hb', hf]

/-- C7, witness: a half-bounded interval is rejected in MAX mode, an
unbounded interval is rejected in MATCH mode, and a finite interval is
accepted in MAX mode. -/
theorem claim7_witness :
    (∃ msg, Targets.NumericalTarget.make "t" TargetMode.MAX ⟨some 0, none⟩ none
      = Except.error msg) ∧
    (∃ msg, Targets.NumericalTarget.make "t" TargetMode.MATCH ⟨none, none⟩ none
      = Except.error msg) ∧
    (Targets.NumericalTarget.make "t" TargetMode.MAX ⟨some 0, some 1⟩ none).isOk
      = true :=
  ⟨ ( claim7_theorem "t" TargetMode.MAX none ⟨some 0, none⟩).1 rfl rfl,
   ( claim7_theorem "t" TargetMode.MATCH none ⟨none, none⟩).2.1 rfl,
   ( claim7_theorem "t" TargetMode.MAX none ⟨some 0, some 1⟩).2.2.1⟩

/-! Claim C9. -/

/-- Recognizer for a `NotImplementedError` outcome, used to state the C9
counterexample. -/
def errIsNotImplemented : Except PyError (List ℝ) → Bool
  | Except.error (PyError.notImplementedError _) => true
  | _ => false

/-- C9, counterexample: the claim is false as stated.  For an
unrecognized kind, the combine-function dispatch of the legacy
`Objective.transform` in `targets.py` raises a `ValueError` describing
the averaging function as unknown, not a not-implemented error. -/
theorem claim9_counterexample :
    Targets.combine_dispatch "FOO" [] []
      = Except.error (PyError.valueError
          "The specified averaging function FOO is unknown.") ∧
    errIsNotImplemented (Targets.combine_dispatch "FOO" [] []) = false :=
  ⟨rfl, rfl⟩

/-- C9, amended: for every kind that is neither the geometric-mean nor
the arithmetic-mean kind, `scalarize` in `desirability.py` fails with a
`NotImplementedError`, and the combine-function dispatch of the legacy
`Objective.transform` in `targets.py` fails with a `ValueError` calling
the averaging function unknown. -/
theorem claim9_theorem (s : String) (h1 : s ≠ "GEOM_MEAN") (h2 : s ≠ "MEAN")
    (values : List (List ℝ)) (weights : List ℚ) :
    Desirability.scalarize values s weights
      = Except.error (PyError.notImplementedError
          ("No scalarization mechanism defined for " ++ s ++ ".")) ∧
    Targets.combine_dispatch s values weights
      = Except.error (PyError.valueError
          ("The specified averaging function " ++ s ++ " is unknown.")) := by
  constructor
  · rw [Desirability.scalarize, if_neg h1, if_neg h2]
  · rw [Targets.combine_dispatch, if_neg h1, if_neg h2]

/-- C9, witness: the amended claim evaluated at the kind FOO. -/
theorem claim9_witness :
    Desirability.scalarize [[(1 : ℝ)/2]] "FOO" [1]
      = Except.error (PyError.notImplementedError
          ("No scalarization mechanism defined for " ++ "FOO" ++ ".")) ∧
    Targets.combine_dispatch "FOO" [[(1 : ℝ)/2]] [1]
      = Except.error (PyError.valueError
          ("The specified averaging function " ++ "FOO" ++ " is unknown.")) :=
  claim9_theorem "FOO" (by decide) (by decide) [[(1 : ℝ)/2]] [1]

/-! Claim C10. -/

/-- C10: with bounded bounds and no explicitly specified transform
function, the default is the first transform valid for the mode (LINEAR
for MIN and MAX, TRIANGULAR for MATCH); with unbounded bounds the default
is none; and with finite bounds, construction without an explicit
transform function succeeds with the default stored. -/
theorem claim10_theorem (name : String) (mode : TargetMode) (bounds : Interval) :
    (bounds.is_bounded = true → mode = TargetMode.MIN →
      Targets._default_bounds_transform_func mode bounds
        = some TransformKind.LINEAR) ∧
    (bounds.is_bounded = true → mode = TargetMode.MAX →
      Targets._default_bounds_transform_func mode bounds
        = some TransformKind.LINEAR) ∧
    (bounds.is_bounded = true → mode = TargetMode.MATCH →
      Targets._default_bounds_transform_func mode bounds
        = some TransformKind.TRIANGULAR) ∧
    (bounds.is_bounded = false →
      Targets._default_bounds_transform_func mode bounds = none) ∧
    (bounds.is_finite = true →
      Targets.NumericalTarget.make name mode bounds none
        = Except.ok ⟨name, mode, bounds,
            Targets._default_bounds_transform_func mode bounds⟩) := by
  have hfb : bounds.is_finite = true → bounds.is_bounded = true := by
    rcases bounds with ⟨l, u⟩
    simp only [Interval.is_finite, Interval.is_bounded, Bool.and_eq_true,
      Bool.or_eq_true]
    intro h
    exact Or.inl h.1
  refine ⟨?_, ?_, ?_, ?_, ?_⟩
  · intro hb hm
    subst hm
    rw [Targets._default_bounds_transform_func, if_pos hb]
    rfl
  · intro hb hm
    subst hm
    rw [Targets._default_bounds_transform_func, if_pos hb]
    rfl
  · intro hb hm
    subst hm
    rw [Targets._default_bounds_transform_func, if_pos hb]
    rfl
  · intro hb
    rw [Targets._default_bounds_transform_func, if_neg (by simp [hb])]
  · intro hf
    have hb := hfb hf
    rw [Targets.NumericalTarget.make.eq_def, Targets._default_bounds_transform_func,
      if_pos hb]
    cases mode <;> simp [hf, hb, Targets._VALID_TRANSFORMS]

/-- C10, witness: the defaults evaluated for each mode on a finite
interval and on an unbounded interval, together with a successful
construction storing the default. -/
theorem claim10_witness :
    Targets._default_bounds_transform_func TargetMode.MIN ⟨some 0, some 1⟩
      = some TransformKind.LINEAR ∧
    Targets._default_bounds_transform_func TargetMode.MAX ⟨some 0, some 1⟩
      = some TransformKind.LINEAR ∧
    Targets._default_bounds_transform_func TargetMode.MATCH ⟨some 0, some 1⟩
      = some TransformKind.TRIANGULAR ∧
    Targets._default_bounds_transform_func TargetMode.MAX ⟨none, none⟩ = none ∧
    Targets.NumericalTarget.make "t" TargetMode.MATCH ⟨some 0, some 1⟩ none
      = Except.ok ⟨"t", TargetMode.MATCH, ⟨some 0, some 1⟩,
          Targets._default_bounds_transform_func TargetMode.MATCH
            ⟨some 0, some 1⟩⟩ :=
  ⟨ ( claim10_theorem "t" TargetMode.MIN ⟨some 0, some 1⟩).1 rfl rfl,
   ( claim10_theorem "t" TargetMode.MAX ⟨some 0, some 1⟩).2.1 rfl rfl,
   ( claim10_theorem "t" TargetMode.MATCH ⟨some 0, some 1⟩).2.2.1 rfl rfl,
   ( claim10_theorem "t" TargetMode.MAX ⟨none, none⟩).2.2.2.1 rfl,
   ( claim10_theorem "t" TargetMode.MATCH ⟨some 0, some 1⟩).2.2.2.2 rfl⟩

/-- Inversion for the desirability weight normalizer: a successful result
is the entry-wise division by the sum. -/
lemma desirability_normalize_ok (ws nws : List ℚ)
    (h : Desirability._normalize_weights ws = Except.ok nws) :
    nws = ws.map (fun w => w / ws.sum) := by
  rw [Desirability._normalize_weights] at h
  split_ifs at h
  exact (Except.ok.inj h).symm

/-! Claim C6. -/

/-- C6: whenever construction of a `DesirabilityObjective` succeeds,
there are at least 2 targets, every target is numerical, every target is
normalized, and the number of supplied weights equals the number of
targets; all of these checks run inside construction. -/
theorem claim6_theorem (targets : List Desirability.Target) (ws : List ℚ)
    (scal : String) (o : Desirability.DesirabilityObjective)
    (h : Desirability.DesirabilityObjective.make targets (some ws) scal
      = Except.ok o) :
    2 ≤ targets.length ∧
    (∀ t ∈ targets, t.isNumerical = true) ∧
    (∀ t ∈ targets, t.is_normalized = true) ∧
    ws.length = targets.length := by
  simp only [Desirability.DesirabilityObjective.make, Option.getD_some] at h
  by_cases h1 : targets.length < 2
  · rw [if_pos h1] at h
    exact Except.noConfusion h
  rw [if_neg h1] at h
  by_cases h2 : (!(targets.all Desirability.Target.isNumerical)) = true
  · rw [if_pos h2] at h
    exact Except.noConfusion h
  rw [if_neg h2] at h
  by_cases h3 : (!(targets.all Desirability.Target.is_normalized)) = true
  · rw [if_pos h3] at h
    exact Except.noConfusion h
  rw [if_neg h3] at h
  cases hnw : Desirability._normalize_weights ws with
  | error e =>
    rw [hnw] at h
    exact Except.noConfusion h
  | ok nws =>
    rw [hnw] at h
    dsimp only at h
    by_cases h4 : (nws.length != targets.length) = true
    · rw [if_pos h4] at h
      exact Except.noConfusion h
    rw [if_neg h4] at h
    by_cases h5 : (!(["MEAN", "GEOM_MEAN"].contains scal)) = true
    · rw [if_pos h5] at h
      exact Except.noConfusion h
    rw [if_neg h5] at h
    have hlen : nws.length = targets.length := by
      simpa using h4
    have hnws := desirability_normalize_ok ws nws hnw
    refine ⟨by omega, ?_, ?_, ?_⟩
    · have h2' : (targets.all Desirability.Target.isNumerical) = true := by
        simpa using h2
      exact List.all_eq_true.mp h2'
    · have h3' : (targets.all Desirability.Target.is_normalized) = true := by
        simpa using h3
      exact List.all_eq_true.mp h3'
    · rw [← hlen, hnws, List.length_map]

/-- C6, witness: the conditions extracted from a successful construction
with two linear bounded targets and weights of matching length. -/
theorem claim6_witness :
    2 ≤ ([Desirability.Target.numerical
        ⟨"A", TargetMode.MAX, ⟨some 0, some 1⟩, some TransformKind.LINEAR⟩,
      Desirability.Target.numerical
        ⟨"B", TargetMode.MIN, ⟨some 0, some 1⟩, some TransformKind.LINEAR⟩]
      : List Desirability.Target).length ∧
    (∀ t ∈ ([Desirability.Target.numerical
        ⟨"A", TargetMode.MAX, ⟨some 0, some 1⟩, some TransformKind.LINEAR⟩,
      Desirability.Target.numerical
        ⟨"B", TargetMode.MIN, ⟨some 0, some 1⟩, some TransformKind.LINEAR⟩]
      : List Desirability.Target), t.isNumerical = true) ∧
    (∀ t ∈ ([Desirability.Target.numerical
        ⟨"A", TargetMode.MAX, ⟨some 0, some 1⟩, some TransformKind.LINEAR⟩,
      Desirability.Target.numerical
        ⟨"B", TargetMode.MIN, ⟨some 0, some 1⟩, some TransformKind.LINEAR⟩]
      : List Desirability.Target), t.is_normalized = true) ∧
    ([(1 : ℚ), 3]).length = ([Desirability.Target.numerical
        ⟨"A", TargetMode.MAX, ⟨some 0, some 1⟩, some TransformKind.LINEAR⟩,
      Desirability.Target.numerical
        ⟨"B", TargetMode.MIN, ⟨some 0, some 1⟩, some TransformKind.LINEAR⟩]
      : List Desirability.Target).length :=
  claim6_theorem _ [1, 3] "MEAN"
    ⟨[Desirability.Target.numerical
        ⟨"A", TargetMode.MAX, ⟨some 0, some 1⟩, some TransformKind.LINEAR⟩,
      Desirability.Target.numerical
        ⟨"B", TargetMode.MIN, ⟨some 0, some 1⟩, some TransformKind.LINEAR⟩],
      ([1, 3] : List ℚ).map (fun w => w / ([1, 3] : List ℚ).sum), "MEAN"⟩
    rfl

/-- A valid target whose transform function is set whenever its bounds
are bounded transforms any column without error. -/
lemma transform_isOk_of_valid (t : Targets.NumericalTarget) (c : List ℝ)
    (hv : t.valid = true)
    (hb : t.bounds.is_bounded = true → t.bounds_transform_func.isSome = true) :
    (Targets.NumericalTarget.transform t c).isOk = true := by
  rw [Targets.NumericalTarget.transform]
  by_cases h : t.bounds.is_bounded = true
  · rw [if_pos h]
    obtain ⟨k, hk⟩ := Option.isSome_iff_exists.mp (hb h)
    have hmem : k ∈ Targets._VALID_TRANSFORMS t.mode := by
      rw [Targets.NumericalTarget.valid] at hv
      simp only [Bool.and_eq_true] at hv
      have h3 := hv.2
      rw [hk] at h3
      exact of_decide_eq_true h3
    rw [hk]
    dsimp only
    cases hmode : t.mode <;> cases k <;>
      rw [hmode] at hmem <;>
      simp_all [Targets._VALID_TRANSFORMS, Targets.apply_bound_transform,
        Except.isOk, Except.toBool]
  · rw [if_neg h]
    by_cases hmin : (t.mode == TargetMode.MIN) = true
    · rw [if_pos hmin]
      rfl
    · rw [if_neg hmin]
      rfl

/-- If every requested column is present, selection succeeds. -/
lemma selectColumns_isOk (data : DataFrame) (names : List String)
    (h : ∀ n ∈ names, (data.getCol n).isSome = true) :
    ∃ sel, selectColumns data names = Except.ok sel := by
  apply exceptMapList_ok
  intro n hn
  obtain ⟨c, hc⟩ := Option.isSome_iff_exists.mp (h n hn)
  simp [hc, Except.isOk, Except.toBool]

/-- A failed selection always fails with a missing-column error. -/
lemma selectColumns_error (data : DataFrame) (names : List String) (e : PyError)
    (h : selectColumns data names = Except.error e) :
    ∃ n, e = PyError.missingColumn n := by
  obtain ⟨n, hn, hfn⟩ := exceptMapList_error _ _ _ h
  cases hc : data.getCol n with
  | some c =>
    rw [hc] at hfn
    dsimp only at hfn
    exact Except.noConfusion hfn
  | none =>
    rw [hc] at hfn
    dsimp only at hfn
    exact ⟨n, (Except.error.inj hfn).symm⟩

/-- Inversion for a successful construction of the legacy `Objective`. -/
lemma objective_make_ok (m : Targets.ObjectiveMode)
    (ts : List Targets.NumericalTarget) (wsArg : Option (List ℚ)) (cf : String)
    (o : Targets.Objective)
    (h : Targets.Objective.make m ts wsArg cf = Except.ok o) :
    o.mode = m ∧ o.targets = ts ∧ o.combine_func = cf ∧
    (cf = "MEAN" ∨ cf = "GEOM_MEAN") := by
  simp only [Targets.Objective.make] at h
  by_cases h1 : ts.length < 1
  · rw [if_pos h1] at h
    exact Except.noConfusion h
  rw [if_neg h1] at h
  by_cases h2 : (m == Targets.ObjectiveMode.SINGLE && ts.length != 1) = true
  · rw [if_pos h2] at h
    exact Except.noConfusion h
  rw [if_neg h2] at h
  by_cases h3 : (m == Targets.ObjectiveMode.DESIRABILITY
      && ts.any (fun t => !t.bounds.is_bounded)) = true
  · rw [if_pos h3] at h
    exact Except.noConfusion h
  rw [if_neg h3] at h
  by_cases h4 : ((Targets._normalize_weights
      (wsArg.getD (List.replicate ts.length 1))).length != ts.length) = true
  · rw [if_pos h4] at h
    exact Except.noConfusion h
  rw [if_neg h4] at h
  by_cases h5 : (!(["MEAN", "GEOM_MEAN"].contains cf)) = true
  · rw [if_pos h5] at h
    exact Except.noConfusion h
  rw [if_neg h5] at h
  obtain rfl := Except.ok.inj h
  refine ⟨rfl, rfl, rfl, ?_⟩
  have h5' : (["MEAN", "GEOM_MEAN"].contains cf) = true := by
    cases hc : ["MEAN", "GEOM_MEAN"].contains cf
    · exact absurd (by rw [hc]; rfl) h5
    · rfl
  simp only [List.contains_cons, List.contains_nil, Bool.or_eq_true,
    beq_iff_eq] at h5'
  tauto

/-- A recognized combine function never fails to dispatch. -/
lemma combine_dispatch_isOk (cf : String) (hcf : cf = "MEAN" ∨ cf = "GEOM_MEAN")
    (v : List (List ℝ)) (w : List ℚ) :
    (Targets.combine_dispatch cf v w).isOk = true := by
  rcases hcf with rfl | rfl <;> rfl

/-! Claim C5. -/

/-- C5, counterexample: the claim is false as stated.  A target with
bounded bounds and an explicitly passed `None` transform function passes
every construction-time validator (the transform validator only checks
values that are not `None`), the legacy objective holding it is validly
constructed, and yet its `transform` on a table that does contain the
target column fails with the dict-lookup `KeyError` from
`bounds_transform_funcs[None]`, which is not a missing-column failure. -/
theorem claim5_counterexample :
    Targets.NumericalTarget.make "t" TargetMode.MAX ⟨some 0, some 1⟩ (some none)
      = Except.ok ⟨"t", TargetMode.MAX, ⟨some 0, some 1⟩, none⟩ ∧
    Targets.Objective.make Targets.ObjectiveMode.SINGLE
        [⟨"t", TargetMode.MAX, ⟨some 0, some 1⟩, none⟩] none "GEOM_MEAN"
      = Except.ok ⟨Targets.ObjectiveMode.SINGLE,
          [⟨"t", TargetMode.MAX, ⟨some 0, some 1⟩, none⟩],
          Targets._normalize_weights (List.replicate 1 1), "GEOM_MEAN"⟩ ∧
    Targets.Objective.transform
        ⟨Targets.ObjectiveMode.SINGLE,
          [⟨"t", TargetMode.MAX, ⟨some 0, some 1⟩, none⟩],
          Targets._normalize_weights (List.replicate 1 1), "GEOM_MEAN"⟩
        ⟨[0], [("t", [1/2])]⟩
      = Except.error PyError.keyError :=
  ⟨rfl, rfl, rfl⟩

/-- C5, amended: for every validly constructed legacy objective whose
targets are themselves valid and have a transform function set whenever
their bounds are bounded, a `transform` call can only fail with a
missing-column error, and succeeds whenever every target column is
present.  (The extra proviso is forced by the counterexample: a bounded
target constructed with an explicitly `None` transform function passes
validation but makes `transform` fail with a dict-lookup `KeyError`.) -/
theorem claim5_theorem (m : Targets.ObjectiveMode)
    (ts : List Targets.NumericalTarget) (wsArg : Option (List ℚ)) (cf : String)
    (o : Targets.Objective)
    (hmk : Targets.Objective.make m ts wsArg cf = Except.ok o)
    (hvalid : ∀ t ∈ ts, t.valid = true)
    (hbtf : ∀ t ∈ ts, t.bounds.is_bounded = true →
      t.bounds_transform_func.isSome = true)
    (data : DataFrame) :
    (∀ e, o.transform data = Except.error e →
      ∃ n, e = PyError.missingColumn n) ∧
    ((∀ t ∈ ts, (data.getCol t.name).isSome = true) →
      (o.transform data).isOk = true) := by
  obtain ⟨hm, hts, hcf, hcfmem⟩ := objective_make_ok m ts wsArg cf o hmk
  have hstep : ∀ (sel : List (String × List ℝ)) (p : Targets.NumericalTarget × (String × List ℝ)),
      p ∈ ts.zip sel →
      ((match Targets.NumericalTarget.transform p.1 p.2.2 with
        | Except.ok v => Except.ok (p.1.name, v)
        | Except.error e => Except.error e) : Except PyError (String × List ℝ)).isOk
        = true := by
    intro sel p hp
    have hp1 : p.1 ∈ ts := (List.of_mem_zip hp).1
    obtain ⟨v, hv⟩ := (isOk_iff _).mp
      (transform_isOk_of_valid p.1 p.2.2 (hvalid _ hp1) (hbtf _ hp1))
    rw [hv]
    rfl
  constructor
  · intro e he
    rw [Targets.Objective.transform, hts] at he
    cases hsel : selectColumns data (ts.map (fun t => t.name)) with
    | error e1 =>
      rw [hsel] at he
      dsimp only at he
      obtain ⟨n, hn⟩ := selectColumns_error _ _ _ hsel
      exact ⟨n, ((Except.error.inj he).symm).trans hn⟩
    | ok sel =>
      rw [hsel] at he
      dsimp only at he
      cases htr : exceptMapList (fun p =>
          match Targets.NumericalTarget.transform p.1 p.2.2 with
          | Except.ok v => Except.ok (p.1.name, v)
          | Except.error e => Except.error e) (ts.zip sel) with
      | error e2 =>
        exfalso
        obtain ⟨p, hp, hfp⟩ := exceptMapList_error _ _ _ htr
        have := hstep sel p hp
        rw [hfp] at this
        exact Bool.noConfusion this
      | ok transformed =>
        rw [htr] at he
        dsimp only at he
        by_cases hdes : (o.mode == Targets.ObjectiveMode.DESIRABILITY) = true
        · rw [if_pos hdes] at he
          obtain ⟨vals, hvals⟩ := (isOk_iff _).mp
            (combine_dispatch_isOk o.combine_func (hcf ▸ hcfmem) _ _)
          rw [hvals] at he
          dsimp only at he
          exact Except.noConfusion he
        · rw [if_neg hdes] at he
          exact Except.noConfusion he
  · intro hcols
    rw [Targets.Objective.transform, hts]
    obtain ⟨sel, hsel⟩ := selectColumns_isOk data (ts.map (fun t => t.name))
      (by
        intro n hn
        obtain ⟨t, ht, rfl⟩ := List.mem_map.mp hn
        exact hcols t ht)
    rw [hsel]
    dsimp only
    obtain ⟨transformed, htr⟩ := exceptMapList_ok _ (ts.zip sel)
      (fun p hp => hstep sel p hp)
    rw [htr]
    dsimp only
    by_cases hdes : (o.mode == Targets.ObjectiveMode.DESIRABILITY) = true
    · rw [if_pos hdes]
      obtain ⟨vals, hvals⟩ := (isOk_iff _).mp
        (combine_dispatch_isOk o.combine_func (hcf ▸ hcfmem) _ _)
      rw [hvals]
      rfl
    · rw [if_neg hdes]
      rfl

/-- C5, witness: the amended claim evaluated at a single-target objective
over a bounded linear MAX target, with a table that contains the target
column next to an unrelated one. -/
theorem claim5_witness :
    (∀ e, Targets.Objective.transform
        ⟨Targets.ObjectiveMode.SINGLE,
          [⟨"A", TargetMode.MAX, ⟨some 0, some 1⟩, some TransformKind.LINEAR⟩],
          Targets._normalize_weights (List.replicate 1 1), "GEOM_MEAN"⟩
        ⟨[0, 1], [("A", [1/2, 1]), ("C", [5, 5])]⟩ = Except.error e →
      ∃ n, e = PyError.missingColumn n) ∧
    ((∀ t ∈ [(⟨"A", TargetMode.MAX, ⟨some 0, some 1⟩, some TransformKind.LINEAR⟩
        : Targets.NumericalTarget)],
      ((⟨[0, 1], [("A", [1/2, 1]), ("C", [5, 5])]⟩ : DataFrame).getCol t.name).isSome
        = true) →
      (Targets.Objective.transform
        ⟨Targets.ObjectiveMode.SINGLE,
          [⟨"A", TargetMode.MAX, ⟨some 0, some 1⟩, some TransformKind.LINEAR⟩],
          Targets._normalize_weights (List.replicate 1 1), "GEOM_MEAN"⟩
        ⟨[0, 1], [("A", [1/2, 1]), ("C", [5, 5])]⟩).isOk = true) :=
  claim5_theorem Targets.ObjectiveMode.SINGLE
    [⟨"A", TargetMode.MAX, ⟨some 0, some 1⟩, some TransformKind.LINEAR⟩]
    none "GEOM_MEAN"
    ⟨Targets.ObjectiveMode.SINGLE,
      [⟨"A", TargetMode.MAX, ⟨some 0, some 1⟩, some TransformKind.LINEAR⟩],
      Targets._normalize_weights (List.replicate 1 1), "GEOM_MEAN"⟩
    rfl (by decide) (by decide) ⟨[0, 1], [("A", [1/2, 1]), ("C", [5, 5])]⟩

/-- Inversion for a successful construction of a
`DesirabilityObjective`. -/
lemma desirability_make_ok (targets : List Desirability.Target)
    (wsArg : Option (List ℚ)) (scal : String)
    (o : Desirability.DesirabilityObjective)
    (h : Desirability.DesirabilityObjective.make targets wsArg scal
      = Except.ok o) :
    o.targets = targets ∧ o.scalarization = scal ∧
    (scal = "MEAN" ∨ scal = "GEOM_MEAN") ∧
    (∀ t ∈ targets, t.isNumerical = true) ∧
    (∀ t ∈ targets, t.is_normalized = true) := by
  simp only [Desirability.DesirabilityObjective.make] at h
  by_cases h1 : targets.length < 2
  · rw [if_pos h1] at h
    exact Except.noConfusion h
  rw [if_neg h1] at h
  by_cases h2 : (!(targets.all Desirability.Target.isNumerical)) = true
  · rw [if_pos h2] at h
    exact Except.noConfusion h
  rw [if_neg h2] at h
  by_cases h3 : (!(targets.all Desirability.Target.is_normalized)) = true
  · rw [if_pos h3] at h
    exact Except.noConfusion h
  rw [if_neg h3] at h
  cases hnw : Desirability._normalize_weights
      (wsArg.getD (List.replicate targets.length 1)) with
  | error e =>
    rw [hnw] at h
    exact Except.noConfusion h
  | ok nws =>
    rw [hnw] at h
    dsimp only at h
    by_cases h4 : (nws.length != targets.length) = true
    · rw [if_pos h4] at h
      exact Except.noConfusion h
    rw [if_neg h4] at h
    by_cases h5 : (!(["MEAN", "GEOM_MEAN"].contains scal)) = true
    · rw [if_pos h5] at h
      exact Except.noConfusion h
    rw [if_neg h5] at h
    obtain rfl := Except.ok.inj h
    refine ⟨rfl, rfl, ?_, ?_, ?_⟩
    · have h5' : (["MEAN", "GEOM_MEAN"].contains scal) = true := by
        cases hc : ["MEAN", "GEOM_MEAN"].contains scal
        · exact absurd (by rw [hc]; rfl) h5
        · rfl
      simp only [List.contains_cons, List.contains_nil, Bool.or_eq_true,
        beq_iff_eq] at h5'
      tauto
    · exact List.all_eq_true.mp (by simpa using h2)
    · exact List.all_eq_true.mp (by simpa using h3)

/-- A recognized scalarization kind never fails to dispatch. -/
lemma scalarize_isOk (s : String) (hs : s = "MEAN" ∨ s = "GEOM_MEAN")
    (v : List (List ℝ)) (w : List ℚ) :
    (Desirability.scalarize v s w).isOk = true := by
  rcases hs with rfl | rfl <;> rfl

/-! Claim C8. -/

/-- C8: for every validly constructed `DesirabilityObjective` (built from
valid targets) and every input table containing all of its target
columns, `transform` returns a table with exactly one column, named
Desirability, indexed identically to the input. -/
theorem claim8_theorem (targets : List Desirability.Target)
    (wsArg : Option (List ℚ)) (scal : String)
    (o : Desirability.DesirabilityObjective)
    (hmk : Desirability.DesirabilityObjective.make targets wsArg scal
      = Except.ok o)
    (hvalid : ∀ t ∈ targets, t.valid = true)
    (data : DataFrame)
    (hcols : ∀ t ∈ targets, (data.getCol t.name).isSome = true) :
    ∃ vals, o.transform data
      = Except.ok ⟨data.index, [("Desirability", vals)]⟩ := by
  obtain ⟨hts, hscal, hsmem, hnum, hnorm⟩ :=
    desirability_make_ok targets wsArg scal o hmk
  have hstep : ∀ (sel : List (String × List ℝ))
      (p : Desirability.Target × (String × List ℝ)), p ∈ targets.zip sel →
      ((match Desirability.Target.transformAny p.1 p.2.2 with
        | Except.ok v => Except.ok (p.1.name, v)
        | Except.error e => Except.error e)
        : Except PyError (String × List ℝ)).isOk = true := by
    intro sel p hp
    have hp1 : p.1 ∈ targets := (List.of_mem_zip hp).1
    cases hpt : p.1 with
    | numerical nt =>
      have hv : nt.valid = true := by
        have := hvalid _ hp1
        rw [hpt] at this
        exact this
      have hb : nt.bounds_transform_func.isSome = true := by
        have := hnorm _ hp1
        rw [hpt] at this
        simp only [Desirability.Target.is_normalized, Desirability.is_normalized,
          Bool.and_eq_true] at this
        exact this.2
      obtain ⟨v, hv2⟩ := (isOk_iff _).mp
        (transform_isOk_of_valid nt p.2.2 hv (fun _ => hb))
      dsimp only [Desirability.Target.transformAny]
      rw [hv2]
      rfl
    | nonNumerical n =>
      exfalso
      have := hnum _ hp1
      rw [hpt] at this
      exact Bool.noConfusion this
  rw [Desirability.DesirabilityObjective.transform, hts]
  obtain ⟨sel, hsel⟩ := selectColumns_isOk data
    (targets.map Desirability.Target.name)
    (by
      intro n hn
      obtain ⟨t, ht, rfl⟩ := List.mem_map.mp hn
      exact hcols t ht)
  rw [hsel]
  dsimp only
  obtain ⟨transformed, htr⟩ := exceptMapList_ok _ (targets.zip sel)
    (fun p hp => hstep sel p hp)
  rw [htr]
  dsimp only
  obtain ⟨vals, hvals⟩ := (isOk_iff _).mp (scalarize_isOk scal hsmem
    (frameValues data.index.length (transformed.map (fun p => p.2))) o.weights)
  rw [hscal, hvals]
  exact ⟨vals, rfl⟩

/-- C8, witness: the claim evaluated at a two-target objective with
default weights and geometric-mean scalarization, on a table containing
both target columns next to an unrelated one. -/
theorem claim8_witness :
    ∃ vals, Desirability.DesirabilityObjective.transform
        ⟨[Desirability.Target.numerical
            ⟨"A", TargetMode.MAX, ⟨some 0, some 1⟩, some TransformKind.LINEAR⟩,
          Desirability.Target.numerical
            ⟨"B", TargetMode.MIN, ⟨some 0, some 1⟩, some TransformKind.LINEAR⟩],
          (List.replicate 2 (1 : ℚ)).map
            (fun w => w / (List.replicate 2 (1 : ℚ)).sum), "GEOM_MEAN"⟩
        ⟨[0, 1], [("A", [1/2, 1]), ("B", [1/2, 0]), ("C", [5, 5])]⟩
      = Except.ok ⟨[0, 1], [("Desirability", vals)]⟩ :=
  claim8_theorem
    [Desirability.Target.numerical
        ⟨"A", TargetMode.MAX, ⟨some 0, some 1⟩, some TransformKind.LINEAR⟩,
      Desirability.Target.numerical
        ⟨"B", TargetMode.MIN, ⟨some 0, some 1⟩, some TransformKind.LINEAR⟩]
    none "GEOM_MEAN"
    ⟨[Desirability.Target.numerical
        ⟨"A", TargetMode.MAX, ⟨some 0, some 1⟩, some TransformKind.LINEAR⟩,
      Desirability.Target.numerical
        ⟨"B", TargetMode.MIN, ⟨some 0, some 1⟩, some TransformKind.LINEAR⟩],
      (List.replicate 2 (1 : ℚ)).map
        (fun w => w / (List.replicate 2 (1 : ℚ)).sum), "GEOM_MEAN"⟩
    rfl (by decide)
    ⟨[0, 1], [("A", [1/2, 1]), ("B", [1/2, 0]), ("C", [5, 5])]⟩
    (by decide)

end Baybe
